import Mathlib

/-!
# Verification of the MCP weather demo (Gemini client + weather MCP server)

Shallow embedding of the two programs of this repository:

* `src/src/client.ts` — the Gemini agent client: the schema bridge that maps
  MCP tool descriptors to Gemini function declarations (`geminiTools` in
  `runAgent`), and the single-round agent loop.
* the weather MCP server source — the helpers `makeNWSRequest` and
  `getCoordinates` and the three tool handlers `get_coordinates`,
  `get_alerts`, `get_forecast`.

Network I/O is modelled by oracle parameters: each external HTTP fetch that a
function performs becomes an explicit argument holding the (already decoded)
response, with `none` standing for the `null` that `makeNWSRequest` /
`getCoordinates` return on any transport failure (non-ok HTTP status or a
thrown/parse error — both collapse to `null` in the source). JavaScript
strings are modelled as Lean `String`, optional/possibly-`undefined` fields
as `Option`.
-/

namespace McpDemo

/-! ## Data model: MCP tool descriptors and Gemini function declarations -/

/-- One property of a tool's JSON-schema `properties` map, as produced by the
zod schemas in the server source (`z.string().describe(...)` etc.):
a type tag and a description. -/
structure PropSchema where
  type : String
  description : String
deriving DecidableEq, Repr

/-- A tool's `inputSchema` as seen by the client over `listTools()`:
a (possibly absent) top-level type tag, a `properties` map (modelled as an
association list, preserving order), and a `required` name list. -/
structure InputSchema where
  type : Option String
  properties : List (String × PropSchema)
  required : List String
deriving DecidableEq, Repr

/-- An MCP tool descriptor as returned by `listTools()`: `name`,
`description` (optional in the MCP SDK type) and `inputSchema`. -/
structure ToolDescriptor where
  name : String
  description : Option String
  inputSchema : InputSchema
deriving DecidableEq, Repr

/-- The `SchemaType` enum of the `@google/generative-ai` SDK, imported at the
top of `client.ts`. -/
inductive SchemaType where
  | STRING
  | NUMBER
  | INTEGER
  | BOOLEAN
  | ARRAY
  | OBJECT
deriving DecidableEq, Repr

/-- The `parameters` object the client builds for each declaration:
`{ type: SchemaType.OBJECT, properties: ..., required: ... }`. -/
structure GeminiParameters where
  type : SchemaType
  properties : List (String × PropSchema)
  required : List String
deriving DecidableEq, Repr

/-- One Gemini function declaration, the element type of
`functionDeclarations` in `client.ts`. -/
structure FunctionDeclaration where
  name : String
  description : Option String
  parameters : GeminiParameters
deriving DecidableEq, Repr

/-- The schema bridge of `client.ts` (the `tools.map` expression building
`geminiTools[0].functionDeclarations`): for each tool it copies `name` and
`description`, tags the parameters with the literal `SchemaType.OBJECT`, and
copies `properties` and `required` from the tool's `inputSchema` verbatim. -/
def toFunctionDeclarations (tools : List ToolDescriptor) : List FunctionDeclaration :=
  tools.map fun tool =>
    { name := tool.name
      description := tool.description
      parameters :=
        { type := SchemaType.OBJECT
          properties := tool.inputSchema.properties
          required := tool.inputSchema.required } }

/-- The keys of a `properties` association list. -/
def keys (props : List (String × PropSchema)) : List String :=
  props.map Prod.fst

/-! ## Data model: tool results -/

/-- One content block of a tool result. Every block the server constructs is
a literal object `{ type: "text", text: ... }`; the `type` field is kept as a
string so that "the block's tag is the text variant" is a real statement
about the constructed value. -/
structure ContentBlock where
  type : String
  text : String
deriving DecidableEq, Repr

/-- A tool result: `{ content: [...] }` as returned by every handler. -/
structure ToolResult where
  content : List ContentBlock
deriving DecidableEq, Repr

/-! ## Agent loop (`runAgent` in `client.ts`) -/

/-- A function call requested by the model
(`result.response.functionCalls()?.[0]`): a tool name and an argument map
(argument values are abstracted to strings; their shape never matters to the
loop, which forwards them opaquely). -/
structure FunctionCall where
  name : String
  args : List (String × String)
deriving DecidableEq, Repr

/-- A model response: the list of requested function calls (empty when the
model answered in plain text) and the response text. -/
structure ModelResponse where
  functionCalls : List FunctionCall
  text : String
deriving DecidableEq, Repr

/-- The observable outcome of one run of the agent loop:
`toolCalls` records every invocation issued to `mcpClient.callTool`, and
`finalAnswer` is the text printed as `"Agent:"` (if any). -/
structure AgentOutcome where
  toolCalls : List FunctionCall
  finalAnswer : Option String
deriving DecidableEq, Repr

/-- The agent loop of `runAgent` (steps 4–5 of `client.ts`), with the model
and the MCP transport as oracles: `firstResponse` is the model's answer to
the prompt, `callTool` is the MCP transport, and `secondResponse` is the
model's answer to the function-response message. `tools` is the list
discovered via `listTools()`; the source uses it only to build the bridged
declarations passed to `startChat` and never consults it again. The loop
reads only the first requested call (`?.[0]`); with a call it invokes the
transport once and prints the second response's text, without a call it
returns with no output. -/
def runAgent (tools : List ToolDescriptor) (firstResponse : ModelResponse)
    (callTool : FunctionCall → ToolResult)
    (secondResponse : ToolResult → ModelResponse) : AgentOutcome :=
  let _geminiTools := toFunctionDeclarations tools
  match firstResponse.functionCalls.head? with
  | some call =>
      { toolCalls := [call]
        finalAnswer := some (secondResponse (callTool call)).text }
  | none =>
      { toolCalls := [], finalAnswer := none }

/-! ## Weather server: interfaces and helpers -/

/-- `NWS_API_BASE` from the server source. -/
def NWS_API_BASE : String := "https://api.weather.gov"

/-- Shorthand for the single-text-block result every handler constructs:
`{ content: [{ type: "text", text: s }] }`. -/
def textResult (s : String) : ToolResult :=
  { content := [{ type := "text", text := s }] }

/-- Renders an optional string the way a JavaScript template literal renders
a possibly-`undefined` value (`${x}` prints `undefined` when absent). -/
def jsStr : Option String → String
  | some s => s
  | none => "undefined"

/-- Renders an optional number (modelled as `Int`) the way a JavaScript
template literal does. -/
def jsNum : Option Int → String
  | some n => toString n
  | none => "undefined"

/-- JavaScript truthiness of a possibly-absent string: `undefined`, `null`
and `""` are falsy, every other string truthy. Used for the
`!pointsData?.properties?.forecast` test in `get_forecast`. -/
def strTruthy : Option String → Bool
  | none => false
  | some s => !s.isEmpty

/-- `GeocodingResult` interface of the server source. -/
structure GeocodingResult where
  lat : String
  lon : String
  display_name : String
deriving DecidableEq, Repr

/-- The helper `getCoordinates(city, state)` of the server source, with the
Nominatim HTTP response as oracle: `resp = none` models a transport failure
or non-ok status (the `catch` returns `null`), `resp = some data` the decoded
JSON array. The body returns `data[0]` when `data && data.length > 0`, else
`null`. `city`/`state` only shape the query URL, which the oracle abstracts. -/
def getCoordinates (resp : Option (List GeocodingResult)) : Option GeocodingResult :=
  match resp with
  | none => none
  | some data => if 0 < data.length then data.head? else none

/-- `AlertFeature` interface of the server source: all fields optional. -/
structure AlertFeature where
  event : Option String
  areaDesc : Option String
  severity : Option String
  status : Option String
  headline : Option String
deriving DecidableEq, Repr

/-- `AlertsResponse`: `features` is modelled as optional because the handler
defends against its absence with `alertsData.features || []`. -/
structure AlertsResponse where
  features : Option (List AlertFeature)
deriving DecidableEq, Repr

/-- `ForecastPeriod` interface of the server source. `temperature` is a
JavaScript number used only inside a template literal; the integral values
the NWS API serves are modelled as `Int`. -/
structure ForecastPeriod where
  name : Option String
  temperature : Option Int
  temperatureUnit : Option String
  windSpeed : Option String
  windDirection : Option String
  shortForecast : Option String
deriving DecidableEq, Repr

/-- The `properties` object of `PointsResponse`: `forecast` is optional. -/
structure PointsProperties where
  forecast : Option String
deriving DecidableEq, Repr

/-- `PointsResponse` interface of the server source. -/
structure PointsResponse where
  properties : PointsProperties
deriving DecidableEq, Repr

/-- The `properties` object of `ForecastResponse`; `periods` is modelled as
optional because the handler defends with `forecastData?.properties?.periods
|| []`. -/
structure ForecastProperties where
  periods : Option (List ForecastPeriod)
deriving DecidableEq, Repr

/-- `ForecastResponse` interface of the server source. -/
structure ForecastResponse where
  properties : ForecastProperties
deriving DecidableEq, Repr

/-! ## Weather server: tool handlers -/

/-- The `get_coordinates` tool handler: on a `null` result from
`getCoordinates` it returns the not-found text naming the requested city and
state, otherwise the location/latitude/longitude text. The external lookup is
the oracle `resp` (see `getCoordinates`); every failure is absorbed into a
returned `ToolResult` — the handler is a total function and throws nothing. -/
def get_coordinates (city state : String)
    (resp : Option (List GeocodingResult)) : ToolResult :=
  match getCoordinates resp with
  | none =>
      textResult ("Could not find coordinates for " ++ city ++ ", " ++ state ++ ".")
  | some coords =>
      textResult ("Location: " ++ coords.display_name ++ "\nLatitude: " ++ coords.lat
        ++ "\nLongitude: " ++ coords.lon)

/-- Models JavaScript's `String.prototype.toUpperCase` as used on the
two-letter ASCII state codes: uppercase each character. -/
def toUpperCase (s : String) : String :=
  ⟨s.data.map Char.toUpper⟩

/-- The alerts query URL `${NWS_API_BASE}/alerts?area=${stateCode}` built by
the `get_alerts` handler after uppercasing the state argument. -/
def alertsUrl (state : String) : String :=
  NWS_API_BASE ++ "/alerts?area=" ++ toUpperCase state

/-- The per-feature formatting expression of the `get_alerts` handler. -/
def formatAlert (f : AlertFeature) : String :=
  "Event: " ++ jsStr f.event ++ "\nSeverity: " ++ jsStr f.severity
    ++ "\nHeadline: " ++ jsStr f.headline ++ "\n---"

/-- Outcome of one `get_alerts` invocation: the returned result together
with the URL the handler passed to `makeNWSRequest` — this records which
area code was actually queried. -/
structure AlertsOutcome where
  result : ToolResult
  requestedUrl : String
deriving DecidableEq, Repr

/-- The `get_alerts` tool handler, with the NWS API as the oracle `fetch`
(`fetch u = none` models the `null` that `makeNWSRequest` returns on
transport failure for URL `u`). The handler uppercases the state, builds
`alertsUrl`, fetches it, and branches: failure text, zero-features text
(`alertsData.features || []` empty), or the formatted alerts text. -/
def get_alerts (state : String) (fetch : String → Option AlertsResponse) : AlertsOutcome :=
  let stateCode := toUpperCase state
  let url := alertsUrl state
  match fetch url with
  | none => { result := textResult "Failed to retrieve alerts data", requestedUrl := url }
  | some d =>
      let features := d.features.getD []
      if features.length = 0 then
        { result := textResult ("No active alerts for " ++ stateCode), requestedUrl := url }
      else
        { result := textResult ("Active alerts for " ++ stateCode ++ ":\n\n"
            ++ String.intercalate "\n" (features.map formatAlert))
          requestedUrl := url }

/-- The points query URL `${NWS_API_BASE}/points/${latitude.toFixed(4)},${longitude.toFixed(4)}`.
The numeric coordinates are floating point in the source; here they enter
already rendered as the strings `latStr`/`lonStr` (the rendering itself is
not modelled and plays no role in any path compared below). -/
def pointsUrl (latStr lonStr : String) : String :=
  NWS_API_BASE ++ "/points/" ++ latStr ++ "," ++ lonStr

/-- The per-period formatting expression of the `get_forecast` handler. -/
def formatPeriod (p : ForecastPeriod) : String :=
  jsStr p.name ++ ": " ++ jsNum p.temperature ++ "°" ++ jsStr p.temperatureUnit
    ++ " - " ++ jsStr p.shortForecast

/-- Outcome of one `get_forecast` invocation: the returned result together
with the list of URLs fetched from the NWS API, in order — this records
whether the second (periods) fetch was performed at all. -/
structure ForecastOutcome where
  result : ToolResult
  requestedUrls : List String
deriving DecidableEq, Repr

/-- The `get_forecast` tool handler. The two NWS fetches are the oracles
`fetchPoints` and `fetchForecast` (`none` = `null` from `makeNWSRequest`).
The guard `!pointsData?.properties?.forecast` is JavaScript falsiness of the
optional forecast locator (`strTruthy`); when it fails the handler returns
the outside-coverage text without touching `fetchForecast`. Otherwise the
locator is fetched and `forecastData?.properties?.periods || []` is
inspected: empty gives the no-periods text, else the formatted forecast. -/
def get_forecast (latStr lonStr : String)
    (fetchPoints : String → Option PointsResponse)
    (fetchForecast : String → Option ForecastResponse) : ForecastOutcome :=
  let url := pointsUrl latStr lonStr
  let pointsData := fetchPoints url
  let locator := pointsData.bind fun p => p.properties.forecast
  match locator with
  | none =>
      { result := textResult "Failed to get forecast URL. Location might be outside US."
        requestedUrls := [url] }
  | some furl =>
      if furl.isEmpty then
        { result := textResult "Failed to get forecast URL. Location might be outside US."
          requestedUrls := [url] }
      else
        let forecastData := fetchForecast furl
        let periods := (forecastData.bind fun f => f.properties.periods).getD []
        if periods.length = 0 then
          { result := textResult "No forecast periods available"
            requestedUrls := [url, furl] }
        else
          { result := textResult ("Forecast for " ++ latStr ++ ", " ++ lonStr ++ ":\n\n"
              ++ String.intercalate "\n" (periods.map formatPeriod))
            requestedUrls := [url, furl] }

/-! ## The three tool registrations of the server, as the client discovers
them over `listTools()`.

The MCP SDK converts each tool's zod shape to a JSON input schema: every
field of the shapes in this source is non-optional, so each schema lists all
its parameter names as `required`, and the top-level tag is `"object"`.
Descriptions are the literal strings of the `server.tool(...)` calls. -/

/-- The `get_coordinates` registration. -/
def getCoordinatesTool : ToolDescriptor :=
  { name := "get_coordinates"
    description := some "Get latitude and longitude for a city. Use this BEFORE getting a forecast."
    inputSchema :=
      { type := some "object"
        properties :=
          [("city", { type := "string", description := "City name (e.g. Livermore)" }),
           ("state", { type := "string", description := "Two-letter state code (e.g. CA)" })]
        required := ["city", "state"] } }

/-- The `get_alerts` registration. -/
def getAlertsTool : ToolDescriptor :=
  { name := "get_alerts"
    description := some "Get weather alerts for a state"
    inputSchema :=
      { type := some "object"
        properties :=
          [("state", { type := "string", description := "Two-letter state code (e.g. CA, NY)" })]
        required := ["state"] } }

/-- The `get_forecast` registration. -/
def getForecastTool : ToolDescriptor :=
  { name := "get_forecast"
    description := some "Get weather forecast for a location (requires latitude/longitude)"
    inputSchema :=
      { type := some "object"
        properties :=
          [("latitude", { type := "number", description := "Latitude of the location" }),
           ("longitude", { type := "number", description := "Longitude of the location" })]
        required := ["latitude", "longitude"] } }

/-- The full discovered tool list of the weather server. -/
def weatherTools : List ToolDescriptor :=
  [getCoordinatesTool, getAlertsTool, getForecastTool]

/-! ## Theorems -/

/-- C1: For every sequence of ToolDescriptors, the schema bridge's output has
the same length as the input; pointwise, each declaration's name and
description equal the corresponding tool's, and — under the data-model
invariant that every required parameter name appears among the `properties`
keys — each declaration's `required` list is a subset of its `properties`
keys. -/
theorem toFunctionDeclarations_shape (tools : List ToolDescriptor)
    (hinv : ∀ t ∈ tools, ∀ r ∈ t.inputSchema.required, r ∈ keys t.inputSchema.properties) :
    (toFunctionDeclarations tools).length = tools.length ∧
    List.Forall₂ (fun t d =>
        d.name = t.name ∧ d.description = t.description ∧
        ∀ r ∈ d.parameters.required, r ∈ keys d.parameters.properties)
      tools (toFunctionDeclarations tools) := by
  refine ⟨by simp [toFunctionDeclarations], ?_⟩
  induction tools with
  | nil => exact List.Forall₂.nil
  | cons t ts ih =>
      refine List.Forall₂.cons ⟨rfl, rfl, ?_⟩ ?_
      · exact hinv t (List.mem_cons_self t ts)
      · exact ih fun u hu => hinv u (List.mem_cons_of_mem t hu)

/-- C1 witness: the theorem applied to the weather server's discovered tool
list, whose descriptors satisfy the required-⊆-properties invariant. -/
theorem toFunctionDeclarations_shape_witness :
    (toFunctionDeclarations weatherTools).length = weatherTools.length ∧
    List.Forall₂ (fun t d =>
        d.name = t.name ∧ d.description = t.description ∧
        ∀ r ∈ d.parameters.required, r ∈ keys d.parameters.properties)
      weatherTools (toFunctionDeclarations weatherTools) :=
  toFunctionDeclarations_shape weatherTools (by decide)

/-- C2: every declaration the bridge emits carries the literal
`SchemaType.OBJECT` as its top-level parameters type, whatever type tag (or
none at all) the source tool's `inputSchema` carried. -/
theorem toFunctionDeclarations_object_type (tools : List ToolDescriptor)
    (d : FunctionDeclaration) (hd : d ∈ toFunctionDeclarations tools) :
    d.parameters.type = SchemaType.OBJECT := by
  simp only [toFunctionDeclarations, List.mem_map] at hd
  obtain ⟨t, -, rfl⟩ := hd
  rfl

/-- C2 witness: a descriptor whose schema carries no top-level type tag at
all still comes out tagged `OBJECT`. -/
theorem toFunctionDeclarations_object_type_witness :
    ({ name := "t", description := none,
       parameters := { type := SchemaType.OBJECT, properties := [], required := [] } }
      : FunctionDeclaration) ∈
      toFunctionDeclarations
        [{ name := "t", description := none,
           inputSchema := { type := none, properties := [], required := [] } }] ∧
    ({ name := "t", description := none,
       parameters := { type := SchemaType.OBJECT, properties := [], required := [] } }
      : FunctionDeclaration).parameters.type = SchemaType.OBJECT :=
  ⟨by decide,
    toFunctionDeclarations_object_type
      [{ name := "t", description := none,
         inputSchema := { type := none, properties := [], required := [] } }]
      _ (by decide)⟩

/-- C3 counterexample: the model requests the tool `"bogus"`, which is not
among the discovered weather tools, yet the agent loop issues a
`callTool` invocation for it — the loop contacts the Tool Provider transport
instead of reporting an UnknownTool failure (no lookup exists in the code). -/
theorem runAgent_unknown_tool_counterexample :
    "bogus" ∉ weatherTools.map ToolDescriptor.name ∧
    (runAgent weatherTools { functionCalls := [{ name := "bogus", args := [] }], text := "" }
        (fun _ => textResult "r") (fun _ => { functionCalls := [], text := "done" })).toolCalls
      = [{ name := "bogus", args := [] }] := by
  constructor
  · decide
  · rfl

/-- C3 amended: the agent loop performs no membership check at all — whenever
the first model response requests a call, that call is dispatched unchanged
to the Tool Provider transport, whether or not its name occurs among the
discovered tools, and no UnknownTool failure is ever produced. -/
theorem runAgent_dispatches_first_call (tools : List ToolDescriptor)
    (firstResponse : ModelResponse) (callTool : FunctionCall → ToolResult)
    (secondResponse : ToolResult → ModelResponse) (c : FunctionCall)
    (hc : firstResponse.functionCalls.head? = some c) :
    (runAgent tools firstResponse callTool secondResponse).toolCalls = [c] := by
  simp [runAgent, hc]

/-- C3 amended witness: the dispatch theorem at the unknown-tool input. -/
theorem runAgent_dispatches_first_call_witness :
    (runAgent weatherTools { functionCalls := [{ name := "bogus", args := [] }], text := "" }
        (fun _ => textResult "r") (fun _ => { functionCalls := [], text := "done" })).toolCalls
      = [{ name := "bogus", args := [] }] :=
  runAgent_dispatches_first_call weatherTools
    { functionCalls := [{ name := "bogus", args := [] }], text := "" }
    (fun _ => textResult "r") (fun _ => { functionCalls := [], text := "done" })
    { name := "bogus", args := [] } rfl

/-- C4 counterexample: the first model response carries no function call and
has text `"hello"`, but the agent loop's final answer is not that text — the
no-call branch of `runAgent` produces no output at all. -/
theorem runAgent_no_call_counterexample :
    ({ functionCalls := [], text := "hello" } : ModelResponse).functionCalls = [] ∧
    (runAgent weatherTools { functionCalls := [], text := "hello" }
        (fun _ => textResult "r") (fun _ => { functionCalls := [], text := "x" })).finalAnswer
      ≠ some "hello" := by
  constructor
  · rfl
  · intro h
    simp [runAgent] at h

/-- C4 amended: when the first model response requests no function call, the
agent loop terminates immediately with no tool invocation and produces no
final answer — the model's text from that response is not surfaced. -/
theorem runAgent_no_call_terminates (tools : List ToolDescriptor)
    (firstResponse : ModelResponse) (callTool : FunctionCall → ToolResult)
    (secondResponse : ToolResult → ModelResponse)
    (hc : firstResponse.functionCalls = []) :
    runAgent tools firstResponse callTool secondResponse
      = { toolCalls := [], finalAnswer := none } := by
  simp [runAgent, hc]

/-- C4 amended witness: the termination theorem at the `"hello"` input. -/
theorem runAgent_no_call_terminates_witness :
    runAgent weatherTools { functionCalls := [], text := "hello" }
        (fun _ => textResult "r") (fun _ => { functionCalls := [], text := "x" })
      = { toolCalls := [], finalAnswer := none } :=
  runAgent_no_call_terminates weatherTools { functionCalls := [], text := "hello" }
    (fun _ => textResult "r") (fun _ => { functionCalls := [], text := "x" }) rfl

/-- C5: when the points lookup fails or its response carries no (truthy)
forecast locator, `get_forecast` returns exactly the text noting the
location might be outside the covered region (the US), and the only URL ever
fetched is the points URL — no second (periods) fetch is performed. -/
theorem get_forecast_points_failure (latStr lonStr : String)
    (fetchPoints : String → Option PointsResponse)
    (fetchForecast : String → Option ForecastResponse)
    (h : strTruthy ((fetchPoints (pointsUrl latStr lonStr)).bind
        fun p => p.properties.forecast) = false) :
    get_forecast latStr lonStr fetchPoints fetchForecast
      = { result := textResult "Failed to get forecast URL. Location might be outside US."
          requestedUrls := [pointsUrl latStr lonStr] } := by
  unfold get_forecast
  cases hl : (fetchPoints (pointsUrl latStr lonStr)).bind fun p => p.properties.forecast with
  | none => simp [hl]
  | some furl =>
      rw [hl] at h
      simp only [strTruthy, Bool.not_eq_false'] at h
      simp [hl, h]

/-- C5 witness: a transport failure of the points lookup at a concrete
coordinate yields the outside-coverage text and a single fetched URL. -/
theorem get_forecast_points_failure_witness :
    get_forecast "37.6819" "-121.7680" (fun _ => none) (fun _ => none)
      = { result := textResult "Failed to get forecast URL. Location might be outside US."
          requestedUrls := [pointsUrl "37.6819" "-121.7680"] } :=
  get_forecast_points_failure "37.6819" "-121.7680" (fun _ => none) (fun _ => none) rfl

/-- C9: once the points lookup has produced a usable forecast locator, a
transport failure of the second (periods) fetch produces exactly the same
result as a successful fetch returning zero periods — both collapse to the
`"No forecast periods available"` text, so the two situations are
indistinguishable to the caller (unlike the alerts tool's distinct failure
text). -/
theorem get_forecast_transport_empty_indistinguishable (latStr lonStr : String)
    (fetchPoints : String → Option PointsResponse) (furl : String)
    (hf : (fetchPoints (pointsUrl latStr lonStr)).bind
        (fun p => p.properties.forecast) = some furl)
    (hne : furl.isEmpty = false) :
    (get_forecast latStr lonStr fetchPoints (fun _ => none)).result
      = (get_forecast latStr lonStr fetchPoints
          (fun _ => some { properties := { periods := some [] } })).result ∧
    (get_forecast latStr lonStr fetchPoints (fun _ => none)).result
      = textResult "No forecast periods available" := by
  unfold get_forecast
  simp [hf, hne]

/-- C9 witness: with a points response carrying the locator `"u"`, the
failed second fetch and the empty second fetch agree on the no-periods
text. -/
theorem get_forecast_transport_empty_indistinguishable_witness :
    (get_forecast "37.6819" "-121.7680"
        (fun _ => some { properties := { forecast := some "u" } }) (fun _ => none)).result
      = (get_forecast "37.6819" "-121.7680"
          (fun _ => some { properties := { forecast := some "u" } })
          (fun _ => some { properties := { periods := some [] } })).result ∧
    (get_forecast "37.6819" "-121.7680"
        (fun _ => some { properties := { forecast := some "u" } }) (fun _ => none)).result
      = textResult "No forecast periods available" :=
  get_forecast_transport_empty_indistinguishable "37.6819" "-121.7680"
    (fun _ => some { properties := { forecast := some "u" } }) "u" rfl rfl

/-- Helper for C6: a string starting with `'N'` never equals one starting
with `'F'`. -/
theorem no_active_ne_failed (s : String) :
    "No active alerts for " ++ s ≠ "Failed to retrieve alerts data" := by
  obtain ⟨l⟩ := s
  intro h
  have hd : (some 'N' : Option Char) = some 'F' := congrArg (fun t => t.data.head?) h
  exact absurd hd (by decide)

/-- C6: for every state, the transport-failure text of `get_alerts` and its
zero-features ("no active alerts") text differ — the two paths never produce
identical results, so "no alerts" remains distinguishable from "could not
check". -/
theorem get_alerts_failure_ne_empty (state : String) (d : AlertsResponse)
    (hd : d.features.getD [] = []) :
    (get_alerts state (fun _ => some d)).result
      ≠ (get_alerts state (fun _ => none)).result := by
  unfold get_alerts
  simp [hd, textResult]
  exact no_active_ne_failed (toUpperCase state)

/-- C6 witness: for state `"CA"` and an alerts response with zero features,
the two texts differ. -/
theorem get_alerts_failure_ne_empty_witness :
    (get_alerts "CA" (fun _ => some { features := some [] })).result
      ≠ (get_alerts "CA" (fun _ => none)).result :=
  get_alerts_failure_ne_empty "CA" { features := some [] } rfl

/-- Two strings are the same letters up to casing when uppercasing them
character by character agrees. -/
def sameLetters (s t : String) : Prop :=
  s.data.map Char.toUpper = t.data.map Char.toUpper

/-- C7: `get_alerts` uppercases its state argument before building the query
URL, so two state arguments that agree up to letter casing produce the same
queried URL — indeed the same complete outcome. -/
theorem get_alerts_case_insensitive (s t : String) (h : sameLetters s t)
    (fetch : String → Option AlertsResponse) :
    get_alerts s fetch = get_alerts t fetch := by
  unfold get_alerts alertsUrl toUpperCase
  rw [show s.data.map Char.toUpper = t.data.map Char.toUpper from h]

/-- C7 witness: `"ca"` and `"CA"` are the same letters up to casing and
query the same area. -/
theorem get_alerts_case_insensitive_witness :
    sameLetters "ca" "CA" ∧
    get_alerts "ca" (fun _ => none) = get_alerts "CA" (fun _ => none) :=
  ⟨by unfold sameLetters; decide,
   get_alerts_case_insensitive "ca" "CA" (by unfold sameLetters; decide) (fun _ => none)⟩

/-- C8: when the geocoding lookup fails at transport level or returns zero
matches, `get_coordinates` returns (it never throws — it is a total
function) exactly the not-found text built from the queried city and state;
that text contains the city and the state as substrings of its character
data, and — whenever the city and state themselves contain no digits — it
contains no digit characters at all, in particular no latitude/longitude
values. -/
theorem get_coordinates_not_found (city state : String)
    (resp : Option (List GeocodingResult))
    (hr : resp = none ∨ resp = some []) :
    get_coordinates city state resp
      = textResult ("Could not find coordinates for " ++ city ++ ", " ++ state ++ ".") ∧
    (∃ p q, p ++ city.data ++ q
        = ("Could not find coordinates for " ++ city ++ ", " ++ state ++ ".").data) ∧
    (∃ p q, p ++ state.data ++ q
        = ("Could not find coordinates for " ++ city ++ ", " ++ state ++ ".").data) ∧
    ((∀ c ∈ city.data, c.isDigit = false) → (∀ c ∈ state.data, c.isDigit = false) →
      ∀ c ∈ ("Could not find coordinates for " ++ city ++ ", " ++ state ++ ".").data,
        c.isDigit = false) := by
  refine ⟨?_, ?_, ?_, ?_⟩
  · rcases hr with rfl | rfl <;> rfl
  · exact ⟨"Could not find coordinates for ".data, (", " ++ state ++ ".").data,
      by simp [String.data_append]⟩
  · exact ⟨("Could not find coordinates for " ++ city ++ ", ").data, ".".data,
      by simp [String.data_append]⟩
  · intro hc hs c hmem
    simp only [String.data_append, List.mem_append] at hmem
    rcases hmem with (((h1 | h2) | h3) | h4) | h5
    · revert h1; revert c; decide
    · exact hc c h2
    · revert h3; revert c; decide
    · exact hs c h4
    · revert h5; revert c; decide

/-- C8 witness: the not-found result for `"Atlantis", "ZZ"` is the template
text, and that text is digit-free. -/
theorem get_coordinates_not_found_witness :
    get_coordinates "Atlantis" "ZZ" none
      = textResult ("Could not find coordinates for " ++ "Atlantis" ++ ", " ++ "ZZ" ++ ".") ∧
    (∀ c ∈ ("Could not find coordinates for " ++ "Atlantis" ++ ", " ++ "ZZ" ++ ".").data,
        c.isDigit = false) :=
  ⟨(get_coordinates_not_found "Atlantis" "ZZ" none (Or.inl rfl)).1,
   (get_coordinates_not_found "Atlantis" "ZZ" none (Or.inl rfl)).2.2.2
     (by decide) (by decide)⟩

/-- C10: every result any of the three tool handlers can produce, on every
path (success, empty, failure), has a `content` sequence of exactly one
block, and that block's `type` tag is `"text"` — stated as: mapping the tag
over the content yields precisely `["text"]`. -/
theorem toolResults_single_text_block
    (city state : String) (resp : Option (List GeocodingResult))
    (st : String) (afetch : String → Option AlertsResponse)
    (latStr lonStr : String) (fp : String → Option PointsResponse)
    (ff : String → Option ForecastResponse) :
    (get_coordinates city state resp).content.map ContentBlock.type = ["text"] ∧
    (get_alerts st afetch).result.content.map ContentBlock.type = ["text"] ∧
    (get_forecast latStr lonStr fp ff).result.content.map ContentBlock.type = ["text"] := by
  refine ⟨?_, ?_, ?_⟩
  · unfold get_coordinates
    cases getCoordinates resp <;> rfl
  · unfold get_alerts
    simp only []
    split
    · rfl
    · split <;> rfl
  · unfold get_forecast
    simp only []
    split
    · rfl
    · split
      · rfl
      · split <;> rfl

end McpDemo
